import Mathlib

/-!
Verification of the citation-extraction core of the `theke` repository.

The Python sources embedded here are:
  * `backend/src/theke/services/citation_extractor.py`
    (class `EnhancedCitationExtractor`: similarity, confidence scoring,
    reference-section location, regex-capture acceptance),
  * `backend/src/theke/services/enhanced_citation_extractor.py`
    (merge/deduplication of candidate citations),
  * `backend/src/theke/services/inline_citation_extractor.py`
    (inline citation markers and linking).

Python strings are modelled as Lean `String`/`List Char`; Python floats are
modelled as exact rationals (`ℚ`); `None`-able values as `Option`; functions
that scan with regular expressions are embedded as explicit character-level
scanners equivalent to the concrete patterns in the source.
-/

namespace Theke

/-- Whitespace characters recognised by Python `str.split()` / `\s` (ASCII range). -/
def isPyWs (c : Char) : Bool :=
  c = ' ' || c = '\t' || c = '\n' || c = '\r' || c = Char.ofNat 11 || c = Char.ofNat 12

/-- Auxiliary accumulator-based splitter behind `splitWs`. -/
def splitWsAux : List Char → List Char → List (List Char)
  | [], acc => if acc.isEmpty then [] else [acc.reverse]
  | c :: rest, acc =>
    if isPyWs c then
      if acc.isEmpty then splitWsAux rest [] else acc.reverse :: splitWsAux rest []
    else splitWsAux rest (c :: acc)

/-- Python `str.split()` with no argument: split on whitespace runs, dropping empties. -/
def splitWs (s : List Char) : List (List Char) := splitWsAux s []

/-- Python `str.strip()`: drop leading and trailing whitespace. -/
def pyStrip (s : List Char) : List Char :=
  ((s.dropWhile isPyWs).reverse.dropWhile isPyWs).reverse

/-- Python `str.lower()` on the ASCII range, applied characterwise. -/
def pyLower (s : List Char) : List Char := s.map Char.toLower

/-- Decide whether `pat` occurs as a contiguous substring of `s`
(Python `pat in s`). -/
def containsSub (s pat : List Char) : Bool :=
  (List.range (s.length + 1)).any (fun i => (s.drop i).take pat.length = pat)

/-- Character is an ASCII decimal digit. -/
def isDigitChar (c : Char) : Bool :=
  decide (c ∈ ['0', '1', '2', '3', '4', '5', '6', '7', '8', '9'])

/-- Python regex word character `\w` on the ASCII range. -/
def isWordChar (c : Char) : Bool :=
  isDigitChar c || ('a' ≤ c && c ≤ 'z') || ('A' ≤ c && c ≤ 'Z') || c = '_'

/-- Numeric value of a list of decimal digits (most significant first). -/
def digitsToNat (ds : List Char) : Nat :=
  ds.foldl (fun acc c => acc * 10 + (c.toNat - '0'.toNat)) 0

end Theke

/-!
Embedding of CPython `difflib.SequenceMatcher` as used by
`EnhancedCitationExtractor._calculate_similarity` (no `isjunk` argument, so the
junk set is empty; the autojunk heuristic applies for `len(b) >= 200`).
`ratioScore a b` is `SequenceMatcher(None, a, b).ratio()` as an exact rational.
-/

namespace Difflib

open Theke

/-- Append position `i` of character `c` to the association list `acc`
(Python `b2j.setdefault(c, []).append(i)`). -/
def addPos (acc : List (Char × List Nat)) (c : Char) (i : Nat) : List (Char × List Nat) :=
  match acc with
  | [] => [(c, [i])]
  | (d, js) :: rest => if d == c then (d, js ++ [i]) :: rest else (d, js) :: addPos rest c i

/-- Association list of the positions (ascending) of every element of `b`,
Python `b2j` before the autojunk filter. -/
def rawB2j (b : List Char) : List (Char × List Nat) :=
  (b.enum.foldl (fun acc p => addPos acc p.2 p.1) [])

/-- Python `__chain_b` with `isjunk = None`: the autojunk heuristic removes
"popular" elements (more than `n // 100 + 1` occurrences) when `n >= 200`. -/
def b2j (b : List Char) : List (Char × List Nat) :=
  let raw := rawB2j b
  let n := b.length
  if 200 ≤ n then raw.filter (fun p => decide (p.2.length ≤ n / 100 + 1)) else raw

/-- Look up the position list of a character in `b2j` (`b2j.get(x, [])`). -/
def b2jGet (m : List (Char × List Nat)) (c : Char) : List Nat :=
  match m.find? (fun p => p.1 == c) with
  | some p => p.2
  | none => []

/-- Look up `j2len.get(j, 0)` in the previous DP row. -/
def j2Get (m : List (Nat × Nat)) (j : Nat) : Nat :=
  match m.find? (fun p => p.1 == j) with
  | some p => p.2
  | none => 0

/-- One row of the `find_longest_match` dynamic program: fold the positions of
`a[i]` inside `[blo, bhi)`, building the new `j2len` row and updating the best
block `(besti, bestj, bestsize)` exactly as the Python inner loop does. -/
def dpRow (i : Nat) (js : List Nat) (old : List (Nat × Nat))
    (best : Nat × Nat × Nat) : List (Nat × Nat) × (Nat × Nat × Nat) :=
  js.foldl
    (fun st j =>
      let k := (if j == 0 then 0 else j2Get old (j - 1)) + 1
      let row := (j, k) :: st.1
      let best := if st.2.2.2 < k then (i + 1 - k, j + 1 - k, k) else st.2
      (row, best))
    ([], best)

/-- The full dynamic program of `find_longest_match` over `i ∈ [alo, ahi)`,
returning the best block before the extension loops. -/
def dpLoop (a : List Char) (m : List (Char × List Nat))
    (alo ahi blo bhi : Nat) : Nat × Nat × Nat :=
  ((List.range' alo (ahi - alo)).foldl
    (fun (st : List (Nat × Nat) × (Nat × Nat × Nat)) i =>
      let js := (b2jGet m (a.getD i ' ')).filter (fun j => decide (blo ≤ j ∧ j < bhi))
      dpRow i js st.1 st.2)
    ([], (alo, blo, 0))).2

/-- Count how many consecutive indices `t = 0, 1, ...` satisfy `p`, up to `fuel`
(the bounded form of the Python `while` extension loops). -/
def whileCount : Nat → (Nat → Bool) → Nat
  | 0, _ => 0
  | fuel + 1, p => if p 0 then 1 + whileCount fuel (fun t => p (t + 1)) else 0

/-- Python `find_longest_match` (with an empty junk set, so the two junk
extension loops are no-ops): the DP phase followed by the two non-junk
extension loops that grow the best block left and right. -/
def findLongestMatch (a b : List Char) (m : List (Char × List Nat))
    (alo ahi blo bhi : Nat) : Nat × Nat × Nat :=
  let r := dpLoop a m alo ahi blo bhi
  let besti := r.1
  let bestj := r.2.1
  let bestsize := r.2.2
  let el := whileCount (min (besti - alo) (bestj - blo))
    (fun t => a.getD (besti - 1 - t) ' ' == b.getD (bestj - 1 - t) ' ')
  let besti := besti - el
  let bestj := bestj - el
  let bestsize := bestsize + el
  let er := whileCount (min (ahi - (besti + bestsize)) (bhi - (bestj + bestsize)))
    (fun t => a.getD (besti + bestsize + t) ' ' == b.getD (bestj + bestsize + t) ' ')
  (besti, bestj, bestsize + er)

/-- Total size of all matching blocks found by the recursive decomposition of
`get_matching_blocks` (the queue-based recursion, summed). The `fuel` bounds
the recursion depth; `ratioScore` supplies more than enough. -/
def matchedTotal (a b : List Char) (m : List (Char × List Nat)) :
    Nat → Nat → Nat → Nat → Nat → Nat
  | 0, _, _, _, _ => 0
  | fuel + 1, alo, ahi, blo, bhi =>
    let r := findLongestMatch a b m alo ahi blo bhi
    let i := r.1
    let j := r.2.1
    let k := r.2.2
    if k == 0 then 0
    else
      matchedTotal a b m fuel alo i blo j + k +
        matchedTotal a b m fuel (i + k) ahi (j + k) bhi

/-- Total matched size `M` over the whole of `a` and `b`
(`sum(size for block in get_matching_blocks)`). -/
def matchedCount (sa sb : String) : Nat :=
  matchedTotal sa.data sb.data (b2j sb.data)
    (sa.data.length + sb.data.length + 1) 0 sa.data.length 0 sb.data.length

/-- Python `SequenceMatcher(None, a, b).ratio()` as an exact rational:
`2 * M / (len(a) + len(b))`, and `1` when both strings are empty. -/
def ratioScore (sa sb : String) : ℚ :=
  if sa.length + sb.length = 0 then 1
  else (2 * matchedCount sa sb : ℚ) / ((sa.length + sb.length : Nat) : ℚ)

end Difflib


/-!
Embedding of `citation_extractor.py` (class `EnhancedCitationExtractor` of the
richer pipeline): the `CitationMatch` record, pairwise similarity, author
similarity and the dynamic extraction-confidence score.
-/

namespace CitationExtractor

open Theke

/-- Python `str.lower()` packaged for `String`. -/
def pyLowerStr (s : String) : String := String.mk (pyLower s.data)

/-- Truthiness of an optional integer (Python `if year:`). -/
def intTruthy : Option Int → Bool
  | none => false
  | some v => decide (v ≠ 0)

/-- Truthiness of an optional string (Python `if doi:` on an `Optional[str]`). -/
def optStrTruthy : Option String → Bool
  | none => false
  | some s => decide (s ≠ "")

/-- The `CitationMatch` dataclass of `citation_extractor.py`. -/
structure CitationMatch where
  title : String
  authors : List String
  year : Option Int := none
  journal : Option String := none
  doi : Option String := none
  confidence : ℚ := 0
  source : String := "unknown"
  raw_text : Option String := none
deriving DecidableEq

/-- Python inner helper `get_last_name` of `_calculate_author_similarity`:
`parts = author_name.strip().split(); parts[-1].lower() if parts else ""`. -/
def get_last_name (author_name : String) : String :=
  match (splitWs (pyStrip author_name.data)).getLast? with
  | some p => String.mk (pyLower p)
  | none => ""

/-- Python `_calculate_author_similarity` (citation_extractor version):
Jaccard similarity of the sets of lower-cased last names. -/
def calculate_author_similarity (authors1 authors2 : List String) : ℚ :=
  if authors1 = [] ∨ authors2 = [] then 0
  else
    let s1 := (authors1.map get_last_name).toFinset
    let s2 := (authors2.map get_last_name).toFinset
    if s1 = ∅ ∨ s2 = ∅ then 0
    else
      let inter := (s1 ∩ s2).card
      let uni := (s1 ∪ s2).card
      if 0 < uni then (inter : ℚ) / (uni : ℚ) else 0

/-- Python `_calculate_similarity`: collect the available weighted component
scores (title `SequenceMatcher` ratio × 0.6, author similarity × 0.3, year
equality × 0.1) and return `sum(scores) / len(scores)`, `0` when no component
is available. -/
def calculate_similarity (c1 c2 : CitationMatch) : ℚ :=
  let scores : List ℚ :=
    (if c1.title ≠ "" ∧ c2.title ≠ "" then
      [Difflib.ratioScore (pyLowerStr c1.title) (pyLowerStr c2.title) * (6/10)]
    else []) ++
    (if c1.authors ≠ [] ∧ c2.authors ≠ [] then
      [calculate_author_similarity c1.authors c2.authors * (3/10)]
    else []) ++
    (if intTruthy c1.year && intTruthy c2.year then
      [(if c1.year = c2.year then (1 : ℚ) else 0) * (1/10)]
    else [])
  if scores = [] then 0 else scores.sum / (scores.length : ℚ)

/-- Python `_calculate_extraction_confidence`: the sequential accumulation of
bonuses onto the base score 0.3, capped at 0.9. -/
def calculate_extraction_confidence (title : String) (authors : List String)
    (year : Option Int) (journal : String) (doi : String) (raw_text : String) : ℚ :=
  let confidence : ℚ := 3/10
  let confidence := if 15 < title.length then confidence + 2/10 else confidence
  let confidence := if 30 < title.length then confidence + 1/10 else confidence
  let confidence :=
    if authors ≠ [] then
      let c := confidence + 15/100
      if 1 < authors.length then c + 5/100 else c
    else confidence
  let confidence := if intTruthy year then confidence + 15/100 else confidence
  let confidence := if journal ≠ "" ∧ 5 < journal.length then confidence + 1/10 else confidence
  let confidence := if doi ≠ "" then confidence + 1/10 else confidence
  let confidence :=
    if raw_text.data.contains '[' ∧ raw_text.data.contains ']' then confidence + 5/100
    else confidence
  let confidence :=
    if raw_text.data.contains '(' ∧ raw_text.data.contains ')' then confidence + 5/100
    else confidence
  min confidence (9/10)

/-- Claim-side bonus list for C1, one entry per clause of the claim. -/
def confidence_bonuses (title : String) (authors : List String)
    (year : Option Int) (journal : String) (doi : String) (raw_text : String) : List ℚ :=
  [if 15 < title.length then (2:ℚ)/10 else 0,
   if 30 < title.length then (1:ℚ)/10 else 0,
   if authors ≠ [] then (15:ℚ)/100 else 0,
   if 1 < authors.length then (5:ℚ)/100 else 0,
   if year.isSome then (15:ℚ)/100 else 0,
   if 5 < journal.length then (1:ℚ)/10 else 0,
   if doi ≠ "" then (1:ℚ)/10 else 0,
   if raw_text.data.contains '[' ∧ raw_text.data.contains ']' then (5:ℚ)/100 else 0,
   if raw_text.data.contains '(' ∧ raw_text.data.contains ')' then (5:ℚ)/100 else 0]

/-- Claim-side formula for C1: base 0.3 plus the completeness bonuses, capped
at 0.9. -/
def confidence_formula (title : String) (authors : List String)
    (year : Option Int) (journal : String) (doi : String) (raw_text : String) : ℚ :=
  min ((3:ℚ)/10 + (confidence_bonuses title authors year journal doi raw_text).sum)
    ((9:ℚ)/10)

/-- Claim-side token Jaccard for a title pair (word sets of the lower-cased
titles), used by the C2 refinement comparison. -/
def token_jaccard (s1 s2 : String) : ℚ :=
  let w1 := (splitWs (pyLower s1.data)).toFinset
  let w2 := (splitWs (pyLower s2.data)).toFinset
  if w1 = ∅ ∨ w2 = ∅ then 0
  else ((w1 ∩ w2).card : ℚ) / ((w1 ∪ w2).card : ℚ)

/-- Claim-side similarity for C2, following the spec sentence: weighted
components 0.6 / 0.3 / 0.1 with the weights renormalised over the components
actually available, and 0 when none is available. -/
def spec_similarity (c1 c2 : CitationMatch) : ℚ :=
  let comps : List (ℚ × ℚ) :=
    (if c1.title ≠ "" ∧ c2.title ≠ "" then
      [((6 : ℚ)/10, token_jaccard c1.title c2.title)]
    else []) ++
    (if c1.authors ≠ [] ∧ c2.authors ≠ [] then
      [((3 : ℚ)/10, calculate_author_similarity c1.authors c2.authors)]
    else []) ++
    (if c1.year.isSome && c2.year.isSome then
      [((1 : ℚ)/10, if c1.year = c2.year then (1 : ℚ) else 0)]
    else [])
  if comps = [] then 0
  else (comps.map (fun p => p.1 * p.2)).sum / (comps.map Prod.fst).sum

/-- Amended formula for C2: the code averages the available weighted component
scores, dividing by the number of available components rather than by the sum
of their weights. -/
def mean_component_similarity (c1 c2 : CitationMatch) : ℚ :=
  let n : ℚ :=
    (if c1.title ≠ "" ∧ c2.title ≠ "" then 1 else 0) +
    (if c1.authors ≠ [] ∧ c2.authors ≠ [] then 1 else 0) +
    (if intTruthy c1.year && intTruthy c2.year then 1 else 0)
  if n = 0 then 0
  else
    ((if c1.title ≠ "" ∧ c2.title ≠ "" then
        Difflib.ratioScore (pyLowerStr c1.title) (pyLowerStr c2.title) * (6/10)
      else 0) +
     (if c1.authors ≠ [] ∧ c2.authors ≠ [] then
        calculate_author_similarity c1.authors c2.authors * (3/10)
      else 0) +
     (if intTruthy c1.year && intTruthy c2.year then
        (if c1.year = c2.year then (1 : ℚ) else 0) * (1/10)
      else 0)) / n

end CitationExtractor

namespace CitationExtractor

open Theke

/-- Text-derived candidate records used for the concrete similarity checks. -/
def ca_alpha : CitationMatch :=
  { title := "alpha beta", authors := [], source := "pdf_extraction" }

/-- Companion record with the same title words in reversed order. -/
def ca_beta : CitationMatch :=
  { title := "beta alpha", authors := [], source := "pdf_extraction" }

/-- Record with title `"ab"` and no other fields. -/
def ca_ab : CitationMatch := { title := "ab", authors := [] }

/-- Record with title `"bacb"` and no other fields. -/
def ca_bacb : CitationMatch := { title := "bacb", authors := [] }

end CitationExtractor

/-!
Embedding of `_find_references_section` (citation_extractor.py): the selection
among heading matches, the section-end search, the citation-density check and
the dense-window fallback. Regex heading/end matching is abstracted to the
lists of matches it produces; the selection and fallback logic is embedded
verbatim.
-/

namespace CitationExtractor

open Theke

/-- A regex match position: `match.start()` and `match.end()`. -/
structure RegexMatch where
  start : Nat
  stop : Nat
deriving DecidableEq

/-- Python `min(valid_matches, key=lambda x: x[0].start())`: the first element
of minimal start. -/
def min_by_start : List RegexMatch → Option RegexMatch
  | [] => none
  | m :: rest => some (rest.foldl (fun best x => if x.start < best.start then x else best) m)

/-- The match-selection logic of `_find_references_section`: among all heading
matches prefer the earliest one starting after 25 percent of the document;
when none qualifies use the last match found. -/
def select_references_match (text_length : Nat) (all_matches : List RegexMatch) :
    Option RegexMatch :=
  if all_matches = [] then none
  else
    let valid := all_matches.filter
      (fun m => decide ((text_length : ℚ) * (25/100) < (m.start : ℚ)))
    if valid = [] then all_matches.getLast?
    else min_by_start valid

/-- Match one citation indicator at the head of `l`: the regex alternation
bracketed number, parenthesised four-digit year, or the literal `et al.`;
returns the match length. -/
def try_indicator (l : List Char) : Option Nat :=
  match l with
  | '[' :: r =>
    let ds := r.takeWhile isDigitChar
    if ds.isEmpty then none
    else if (r.drop ds.length).head? = some ']' then some (ds.length + 2) else none
  | '(' :: d1 :: d2 :: d3 :: d4 :: ')' :: _ =>
    if isDigitChar d1 && isDigitChar d2 && isDigitChar d3 && isDigitChar d4 then some 6
    else none
  | 'e' :: 't' :: ' ' :: 'a' :: 'l' :: '.' :: _ => some 6
  | _ => none

/-- Fuel-bounded scan counting non-overlapping indicator matches
(`re.findall` semantics). -/
def count_ind_aux : Nat → List Char → Nat
  | 0, _ => 0
  | _ + 1, [] => 0
  | fuel + 1, l@(_ :: rest) =>
    match try_indicator l with
    | some k => 1 + count_ind_aux fuel (l.drop k)
    | none => count_ind_aux fuel rest

/-- Number of citation indicators in a section. -/
def count_indicators (l : List Char) : Nat := count_ind_aux (l.length + 1) l

/-- Citation density: indicators per word, with the word count floored at 1. -/
def citation_density (sec : List Char) : ℚ :=
  (count_indicators sec : ℚ) / ((max (splitWs sec).length 1 : Nat) : ℚ)

/-- Modelled from the spec: `_find_citation_dense_section` is called by
`_find_references_section` (and by the repository tests) but its definition is
not among the provided sources; section 4.2 of the specification describes it
as scanning fixed-size sliding windows of the full text and returning the
highest-density window. The window size and stride are parameters. -/
def find_citation_dense_section (window_size step : Nat) (text : String) : Option String :=
  let chars := text.data
  if chars.isEmpty ∨ step = 0 then none
  else
    let count := (chars.length + step - 1) / step
    let offsets := (List.range count).map (fun i => i * step)
    let windows := offsets.map (fun o => (chars.drop o).take window_size)
    (windows.foldl
      (fun best w =>
        match best with
        | none => some w
        | some b => if citation_density b < citation_density w then some w else best)
      none).map String.mk

/-- The section-end loop of `_find_references_section`: take the first end
pattern whose first match (given by its offset into `text[start:]`) leaves
more than 500 characters of section, else the document end. -/
def find_end_pos (text_len start : Nat) : List (Option Nat) → Nat
  | [] => text_len
  | none :: rest => find_end_pos text_len start rest
  | some off :: rest => if 500 < off then start + off else find_end_pos text_len start rest

/-- The tail of `_find_references_section`: a long located section of density
below 0.005 is replaced by the dense-window fallback when that returns one;
otherwise sections of at most 100 characters collapse to `None`. -/
def finish_references_section (full : String) (window_size step : Nat)
    (sec : List Char) : Option String :=
  if citation_density sec < 5/1000 ∧ 1000 < sec.length then
    match find_citation_dense_section window_size step full with
    | some fb => some fb
    | none => if 100 < sec.length then some (String.mk sec) else none
  else if 100 < sec.length then some (String.mk sec) else none

/-- Python `_find_references_section`, abstracted over the heading matches and
the per-end-pattern first-match offsets that the regex layer produces. -/
def find_references_section (window_size step : Nat) (text : String)
    (heading_matches : List RegexMatch) (end_matches : List (Option Nat)) : Option String :=
  match select_references_match text.length heading_matches with
  | none => find_citation_dense_section window_size step text
  | some m =>
    let start := m.stop
    let end_pos := find_end_pos text.data.length start end_matches
    let sec := (text.data.drop start).take (end_pos - start)
    finish_references_section text window_size step sec

end CitationExtractor

/-!
Embedding of the field normalisers and the capture-acceptance logic of
`_extract_with_regex` (citation_extractor.py): `_clean_title`,
`_is_invalid_title`, `_parse_authors`, `_normalize_author_name`,
`_clean_journal_name`, and the per-capture processing that decides whether a
regex capture becomes a `CitationMatch`.
-/

namespace CitationExtractor

open Theke

/-- Quote glyphs stripped by `_clean_title`: straight and curly double and
single quotes. -/
def quoteChars : List Char :=
  [Char.ofNat 34, Char.ofNat 8220, Char.ofNat 8221, Char.ofNat 39,
   Char.ofNat 8216, Char.ofNat 8217]

/-- Strip one leading quote glyph and the whitespace following it. -/
def strip_leading_quote (t : List Char) : List Char :=
  match t with
  | c :: rest => if quoteChars.contains c then rest.dropWhile isPyWs else t
  | [] => []

/-- Strip one trailing quote glyph and the whitespace before it. -/
def strip_trailing_quote (t : List Char) : List Char :=
  match t.reverse with
  | c :: rest => if quoteChars.contains c then (rest.dropWhile isPyWs).reverse else t
  | [] => []

/-- Strip a trailing run of `.,:;` (`[.,:;]+$`). -/
def strip_trailing_punct (t : List Char) : List Char :=
  (t.reverse.dropWhile (fun c => (['.', ',', ':', ';'] : List Char).contains c)).reverse

/-- Collapse whitespace runs to single spaces (`re.sub(r'\s+', ' ', s)`). -/
def collapseWsAux : List Char → Bool → List Char
  | [], _ => []
  | c :: rest, inWs =>
    if isPyWs c then
      if inWs then collapseWsAux rest true else ' ' :: collapseWsAux rest true
    else c :: collapseWsAux rest false

/-- Whitespace-collapsed form of a character list. -/
def collapseWs (l : List Char) : List Char := collapseWsAux l false

/-- Python `_clean_title`: strip surrounding quotes, trailing punctuation,
collapse whitespace and strip. -/
def clean_title (t : List Char) : List Char :=
  pyStrip (collapseWs (strip_trailing_punct (strip_trailing_quote (strip_leading_quote t))))

/-- Prefix check for `^pp?\.?\s*\d` on the lower-cased title. -/
def pp_prefix_check (l : List Char) : Bool :=
  match l with
  | 'p' :: r =>
    (if r.head? = some 'p' then [r.drop 1, r] else [r]).any (fun r1 =>
      (if r1.head? = some '.' then [r1.drop 1, r1] else [r1]).any (fun r2 =>
        match (r2.dropWhile isPyWs).head? with
        | some c => isDigitChar c
        | none => false))
  | _ => false

/-- Prefix check for `^vol\.?\s*\d` on the lower-cased title. -/
def vol_prefix_check (l : List Char) : Bool :=
  match l with
  | 'v' :: 'o' :: 'l' :: r =>
    (if r.head? = some '.' then [r.drop 1, r] else [r]).any (fun r1 =>
      match (r1.dropWhile isPyWs).head? with
      | some c => isDigitChar c
      | none => false)
  | _ => false

/-- Prefix check for `^\d+\s*\(\d+\)` on the lower-cased title. -/
def num_paren_check (l : List Char) : Bool :=
  let ds := l.takeWhile isDigitChar
  if ds.isEmpty then false
  else
    match (l.drop ds.length).dropWhile isPyWs with
    | '(' :: r2 =>
      let ds2 := r2.takeWhile isDigitChar
      !ds2.isEmpty && decide ((r2.drop ds2.length).head? = some ')')
    | _ => false

/-- Python `_is_invalid_title`: pure digits, URL-like, DOI-like, page-range or
volume-fragment titles are invalid. -/
def is_invalid_title (title : List Char) : Bool :=
  let lower := pyLower title
  (!title.isEmpty && title.all isDigitChar)
  || containsSub lower "http".data
  || containsSub lower "www.".data
  || decide (lower.take 4 = "doi:".data)
  || decide (title.take 3 = "10.".data)
  || pp_prefix_check lower
  || (vol_prefix_check lower || num_paren_check lower)

/-- Match one author separator at the head of `l`
(`\s+and\s+|\s*&\s*|\s*；\s*|\s*;\s*`, case-insensitive), returning the
match length. -/
def try_sep1 (l : List Char) : Option Nat :=
  let ws1 := l.takeWhile isPyWs
  let alt1 :=
    if ws1.isEmpty then none
    else
      match l.drop ws1.length with
      | a :: n :: d :: r =>
        if a.toLower = 'a' ∧ n.toLower = 'n' ∧ d.toLower = 'd' then
          let ws2 := r.takeWhile isPyWs
          if ws2.isEmpty then none else some (ws1.length + 3 + ws2.length)
        else none
      | _ => none
  match alt1 with
  | some k => some k
  | none =>
    match (l.drop ws1.length).head? with
    | some c =>
      if c = '&' ∨ c = Char.ofNat 65307 ∨ c = ';' then
        some (ws1.length + 1 + ((l.drop (ws1.length + 1)).takeWhile isPyWs).length)
      else none
    | none => none

/-- Replace every separator match by a comma-space (`re.sub(sep, ', ', s)`). -/
def sub_separators1 : Nat → List Char → List Char
  | 0, l => l
  | _ + 1, [] => []
  | fuel + 1, l@(c :: rest) =>
    match try_sep1 l with
    | some k => ',' :: ' ' :: sub_separators1 fuel (l.drop k)
    | none => c :: sub_separators1 fuel rest

/-- Match `\s*、\s*` (ideographic comma) at the head of `l`. -/
def try_sep2 (l : List Char) : Option Nat :=
  let ws1 := l.takeWhile isPyWs
  match (l.drop ws1.length).head? with
  | some c =>
    if c = Char.ofNat 12289 then
      some (ws1.length + 1 + ((l.drop (ws1.length + 1)).takeWhile isPyWs).length)
    else none
  | none => none

/-- Replace every ideographic-comma separator by a comma-space. -/
def sub_separators2 : Nat → List Char → List Char
  | 0, l => l
  | _ + 1, [] => []
  | fuel + 1, l@(c :: rest) =>
    match try_sep2 l with
    | some k => ',' :: ' ' :: sub_separators2 fuel (l.drop k)
    | none => c :: sub_separators2 fuel rest

/-- Split a character list on commas (`s.split(",")`). -/
def split_commas : List Char → List Char → List (List Char)
  | [], acc => [acc.reverse]
  | ',' :: rest, acc => acc.reverse :: split_commas rest []
  | c :: rest, acc => split_commas rest (c :: acc)

/-- Match `\[\d+\]|\(\d+\)` at the head of `l`. -/
def try_bracket_num (l : List Char) : Option Nat :=
  match l with
  | '[' :: r =>
    let ds := r.takeWhile isDigitChar
    if ds.isEmpty then none
    else if (r.drop ds.length).head? = some ']' then some (ds.length + 2) else none
  | '(' :: r =>
    let ds := r.takeWhile isDigitChar
    if ds.isEmpty then none
    else if (r.drop ds.length).head? = some ')' then some (ds.length + 2) else none
  | _ => none

/-- Delete every bracketed or parenthesised number
(`re.sub(r'\[\d+\]|\(\d+\)', '', s)`). -/
def remove_bracket_nums : Nat → List Char → List Char
  | 0, l => l
  | _ + 1, [] => []
  | fuel + 1, l@(c :: rest) =>
    match try_bracket_num l with
    | some k => remove_bracket_nums fuel (l.drop k)
    | none => c :: remove_bracket_nums fuel rest

/-- Edge punctuation stripped from author names (`[.,:;"']`). -/
def edge_punct : List Char := ['.', ',', ':', ';', Char.ofNat 34, Char.ofNat 39]

/-- Strip leading and trailing runs of edge punctuation
(`^[.,:;"']+|[.,:;"']+$`). -/
def strip_edge_punct (l : List Char) : List Char :=
  ((l.dropWhile (edge_punct.contains ·)).reverse.dropWhile (edge_punct.contains ·)).reverse

/-- Does the name contain three consecutive digits (`[0-9]{3,}`)? -/
def has_digit_run3 : List Char → Bool
  | c1 :: c2 :: c3 :: rest =>
    (isDigitChar c1 && isDigitChar c2 && isDigitChar c3) || has_digit_run3 (c2 :: c3 :: rest)
  | _ => false

/-- Count of characters outside `[a-zA-Z\s.-]`. -/
def special_char_count (name : List Char) : Nat :=
  (name.filter (fun c =>
    !(('a' ≤ c && c ≤ 'z') || ('A' ≤ c && c ≤ 'Z') || isPyWs c || c = '.' || c = '-'))).length

/-- Python `_normalize_author_name`. -/
def normalize_author_name (name : List Char) : Option (List Char) :=
  if (splitWs name).length ≤ 4 ∧ has_digit_run3 name = false then some name
  else if 50 < name.length then none
  else if (3 : ℚ)/10 < (special_char_count name : ℚ) / ((max name.length 1 : Nat) : ℚ) then none
  else some name

/-- Names rejected outright by `_parse_authors`. -/
def forbidden_author_names : List (List Char) :=
  ["et al".data, "et al.".data, "others".data, "など".data]

/-- Python `_parse_authors`: normalise separators to commas, split, clean each
name, validate, normalise, and cap the list at 15 entries. -/
def parse_authors (authors_str : List Char) : List (List Char) :=
  if authors_str.isEmpty ∨ (pyStrip authors_str).isEmpty then []
  else
    let s1 := sub_separators1 (authors_str.length + 1) authors_str
    let s2 := sub_separators2 (s1.length + 1) s1
    let parts := ((split_commas s2 []).map pyStrip).filter (fun a => !a.isEmpty)
    let cleaned := parts.filterMap (fun author =>
      let a1 := remove_bracket_nums (author.length + 1) author
      let a2 := strip_edge_punct a1
      let a3 := pyStrip (collapseWs a2)
      if 2 < a3.length ∧ pyLower a3 ∉ forbidden_author_names ∧
          ¬(a3 ≠ [] ∧ a3.all isDigitChar) then
        normalize_author_name a3
      else none)
    cleaned.take 15

/-- Does `,?\s*(?:vol\.?|volume)\s*\d+` match at the head of `l`
(case-insensitive)? -/
def matches_vol_tail (l : List Char) : Bool :=
  (match l with
   | ',' :: r => [r, l]
   | _ => [l]).any (fun l1 =>
    let l2 := l1.dropWhile isPyWs
    match l2 with
    | v :: o :: w :: r =>
      if v.toLower = 'v' ∧ o.toLower = 'o' ∧ w.toLower = 'l' then
        ((if r.head? = some '.' then [r.drop 1, r] else [r]).any (fun r1 =>
          match (r1.dropWhile isPyWs).head? with
          | some c => isDigitChar c
          | none => false)) ||
        (match r with
         | u :: m :: e :: r2 =>
           if u.toLower = 'u' ∧ m.toLower = 'm' ∧ e.toLower = 'e' then
             match (r2.dropWhile isPyWs).head? with
             | some c => isDigitChar c
             | none => false
           else false
         | _ => false)
      else false
    | _ => false)

/-- Does `,?\s*\d+\s*\(\d+\)` match at the head of `l`? -/
def matches_numparen_tail (l : List Char) : Bool :=
  (match l with
   | ',' :: r => [r, l]
   | _ => [l]).any (fun l1 =>
    let l2 := l1.dropWhile isPyWs
    let ds := l2.takeWhile isDigitChar
    if ds.isEmpty then false
    else
      match (l2.drop ds.length).dropWhile isPyWs with
      | '(' :: r2 =>
        let ds2 := r2.takeWhile isDigitChar
        !ds2.isEmpty && decide ((r2.drop ds2.length).head? = some ')')
      | _ => false)

/-- Truncate at the first position where `p` holds (the `.*$` tail of the
journal-cleanup substitutions erases everything from the match on). -/
def cut_at_first (p : List Char → Bool) : Nat → List Char → List Char
  | 0, l => l
  | _ + 1, [] => []
  | fuel + 1, l@(c :: rest) => if p l then [] else c :: cut_at_first p fuel rest

/-- Python `_clean_journal_name`: drop volume/issue fragments, trailing
punctuation, and collapse whitespace. -/
def clean_journal_name (j : List Char) : List Char :=
  if j.isEmpty then []
  else
    let j1 := cut_at_first matches_vol_tail (j.length + 1) j
    let j2 := cut_at_first matches_numparen_tail (j1.length + 1) j1
    pyStrip (collapseWs (strip_trailing_punct j2))

/-- The stripped nonempty regex groups of one pattern match, keyed by the
field names of the pattern (`citation_data`). -/
structure CaptureData where
  number : Option String := none
  authors : Option String := none
  title : Option String := none
  journal : Option String := none
  year : Option String := none
  year1 : Option String := none
  year2 : Option String := none
  doi : Option String := none

/-- Python `int(...)` on a stripped numeric string. -/
def parse_int (s : String) : Option Int :=
  let t := pyStrip s.data
  match t with
  | '-' :: ds =>
    if !ds.isEmpty && ds.all isDigitChar then some (-(digitsToNat ds : Int)) else none
  | '+' :: ds =>
    if !ds.isEmpty && ds.all isDigitChar then some (digitsToNat ds : Int) else none
  | ds => if !ds.isEmpty && ds.all isDigitChar then some (digitsToNat ds : Int) else none

/-- The year-selection loop: the first year field whose integer value lies in
[1900, 2030]; parse failures and out-of-range values are skipped. -/
def first_valid_year : List (Option String) → Option Int
  | [] => none
  | none :: rest => first_valid_year rest
  | some s :: rest =>
    if s = "" then first_valid_year rest
    else
      match parse_int s with
      | some y => if 1900 ≤ y ∧ y ≤ 2030 then some y else first_valid_year rest
      | none => first_valid_year rest

/-- The per-capture acceptance logic of `_extract_with_regex` (lines 400-455):
require a title group plus any year or authors group, clean the title, reject
short or invalid titles, parse the remaining fields, and build the
`CitationMatch`. -/
def process_capture (d : CaptureData) (raw : String) : Option CitationMatch :=
  if d.title.isSome ∧ (d.year.isSome ∨ d.year1.isSome ∨ d.year2.isSome ∨ d.authors.isSome) then
    let authors_str := d.authors.getD ""
    let title0 := d.title.getD ""
    let year := first_valid_year [d.year, d.year1, d.year2]
    let journal0 := d.journal.getD ""
    let doi := d.doi.getD ""
    let title := clean_title title0.data
    if title.length < 8 ∨ is_invalid_title title = true then none
    else
      let authors := (parse_authors authors_str.data).map String.mk
      let journal := String.mk (clean_journal_name journal0.data)
      let confidence := calculate_extraction_confidence (String.mk title) authors year
        journal doi raw
      some { title := String.mk title, authors := authors, year := year,
             journal := some journal, doi := some doi, confidence := confidence,
             source := "pdf_extraction", raw_text := some (String.mk (raw.data.take 300)) }
  else none

end CitationExtractor

/-!
Embedding of `enhanced_citation_extractor.py` (the later, richer pipeline that
the specification follows): the `ExtractedCitation` record, the similarity
judgement `_are_similar_citations`, and `_merge_and_deduplicate`.
-/

namespace Enhanced

open Theke CitationExtractor

/-- The `ExtractedCitation` dataclass of `enhanced_citation_extractor.py`. -/
structure ExtractedCitation where
  title : Option String := none
  authors : Option (List String) := none
  year : Option Int := none
  doi : Option String := none
  journal : Option String := none
  source : String := "unknown"
  context : Option String := none
  page_number : Option Int := none
  confidence : ℚ := 0
deriving DecidableEq

/-- Truthiness of an optional list (Python `if citation.authors:`). -/
def optListTruthy : Option (List String) → Bool
  | none => false
  | some l => decide (l ≠ [])

/-- Python `_calculate_string_similarity`: Jaccard similarity of the word
sets of the two strings (0 when either is empty). -/
def calculate_string_similarity (s1 s2 : String) : ℚ :=
  if s1 = "" ∨ s2 = "" then 0
  else
    let w1 := (splitWs s1.data).toFinset
    let w2 := (splitWs s2.data).toFinset
    if w1 = ∅ ∨ w2 = ∅ then 0
    else if 0 < (w1 ∪ w2).card then ((w1 ∩ w2).card : ℚ) / ((w1 ∪ w2).card : ℚ) else 0

/-- Python `_calculate_author_similarity` (enhanced version): the number of
authors of the first list that greedily match some author of the second list
with string similarity above 0.8, divided by the longer list length. -/
def author_similarity_enh (authors1 authors2 : List String) : ℚ :=
  if authors1 = [] ∨ authors2 = [] then 0
  else
    let matched := (authors1.filter (fun a1 => authors2.any (fun a2 =>
      decide ((8:ℚ)/10 < calculate_string_similarity (pyLowerStr a1) (pyLowerStr a2))))).length
    (matched : ℚ) / (max authors1.length authors2.length : ℚ)

/-- Python `_are_similar_citations`: identical non-empty DOI, or title word
Jaccard above 0.8, or (equal truthy years and author similarity above 0.7). -/
def are_similar_citations (c1 c2 : ExtractedCitation) : Bool :=
  if optStrTruthy c1.doi && optStrTruthy c2.doi && decide (c1.doi = c2.doi) then true
  else if optStrTruthy c1.title && optStrTruthy c2.title &&
      decide ((8:ℚ)/10 < calculate_string_similarity
        (pyLowerStr (c1.title.getD "")) (pyLowerStr (c2.title.getD ""))) then true
  else if optListTruthy c1.authors && optListTruthy c2.authors &&
      intTruthy c1.year && intTruthy c2.year && decide (c1.year = c2.year) &&
      decide ((7:ℚ)/10 < author_similarity_enh (c1.authors.getD []) (c2.authors.getD [])) then
    true
  else false

/-- The source-priority table of `_merge_and_deduplicate`
(`source_priority.get(source, 0)`). -/
def source_priority (s : String) : Nat :=
  if s = "openalex" then 5
  else if s = "crossref" then 4
  else if s = "semantic_scholar" then 3
  else if s = "pdf_extraction" then 2
  else if s = "pdf_text" then 2
  else if s = "llm" then 1
  else if s = "merged" then 6
  else if s = "manual" then 7
  else 0

/-- The merge branch of `_merge_and_deduplicate`: fill the fields of the
existing canonical entry that are missing, promote the provenance tag only on
strictly higher priority (marking "merged" on an equal positive priority), and
keep the larger confidence. -/
def merge_into (existing citation : ExtractedCitation) : ExtractedCitation :=
  let t := if !optStrTruthy existing.title && optStrTruthy citation.title
    then citation.title else existing.title
  let a := if !optListTruthy existing.authors && optListTruthy citation.authors
    then citation.authors else existing.authors
  let y := if !intTruthy existing.year && intTruthy citation.year
    then citation.year else existing.year
  let d := if !optStrTruthy existing.doi && optStrTruthy citation.doi
    then citation.doi else existing.doi
  let j := if !optStrTruthy existing.journal && optStrTruthy citation.journal
    then citation.journal else existing.journal
  let cur := source_priority existing.source
  let new := source_priority citation.source
  let src :=
    if cur < new then citation.source
    else if 0 < cur ∧ 0 < new ∧ cur = new then "merged"
    else existing.source
  let conf := if existing.confidence < citation.confidence
    then citation.confidence else existing.confidence
  { title := t, authors := a, year := y, doi := d, journal := j, source := src,
    context := existing.context, page_number := existing.page_number, confidence := conf }

/-- Replace the first entry of `merged` similar to `c` by its merge with `c`;
`none` when no entry is similar (the scan-and-break loop of the Python code). -/
def replace_first_similar : List ExtractedCitation → ExtractedCitation →
    Option (List ExtractedCitation)
  | [], _ => none
  | e :: rest, c =>
    if are_similar_citations c e then some (merge_into e c :: rest)
    else
      match replace_first_similar rest c with
      | some rest2 => some (e :: rest2)
      | none => none

/-- Python `_merge_and_deduplicate`: fold each candidate into the canonical
list, merging into the first similar entry or appending. -/
def merge_and_deduplicate (citations : List ExtractedCitation) : List ExtractedCitation :=
  if citations = [] then []
  else
    citations.foldl
      (fun merged c =>
        match replace_first_similar merged c with
        | some merged2 => merged2
        | none => merged ++ [c])
      []

end Enhanced

/-!
Embedding of `inline_citation_extractor.py`: the inline-marker grammars of
`_extract_inline_citations_from_text`, sentence extraction, rhetorical-role
classification, deduplication and sorting, `link_citations_to_references`,
and `_extract_year_from_ref`. The two parenthesis grammars are scanned by the
Python code but their matches fall into the `else: continue` branch of the
number-extraction dispatch, so they never produce a marker and are omitted
from the marker-producing pattern list.
-/

namespace Inline

open Theke

/-- Rhetorical roles of `CitationType`. -/
inductive CitationType where
  | reference
  | evidence
  | attribution
  | comparison
  | contrast
  | method
  | definition
deriving DecidableEq

/-- The `InlineCitation` dataclass. -/
structure InlineCitation where
  citation_numbers : List Int
  raw_text : String
  context_before : String
  context_after : String
  position : Nat
  citation_type : CitationType
  sentence : String
deriving DecidableEq

/-- The reference-entry dictionary built by `_extract_reference_entries`. -/
structure ReferenceEntry where
  number : Int
  raw_text : String
  authors : List String := []
  title : Option String := none
  year : Option Int := none
  venue : Option String := none
  doi : Option String := none
  url : Option String := none
deriving DecidableEq

/-- The `CitationLink` dataclass. -/
structure CitationLink where
  inline_citation : InlineCitation
  reference_entry : Option ReferenceEntry
  confidence : ℚ

/-- Length of the whitespace prefix. -/
def pWsLen (l : List Char) : Nat := (l.takeWhile isPyWs).length

/-- Match `\[\s*(\d+)\s*\]` at the head; returns length and numbers. -/
def matchSingle (l : List Char) : Option (Nat × List Int) :=
  match l with
  | '[' :: r =>
    let w1 := pWsLen r
    let r1 := r.drop w1
    let ds := r1.takeWhile isDigitChar
    if ds.isEmpty then none
    else
      let r2 := r1.drop ds.length
      let w2 := pWsLen r2
      if (r2.drop w2).head? = some ']' then
        some (1 + w1 + ds.length + w2 + 1, [(digitsToNat ds : Int)])
      else none
  | _ => none

/-- Match `\[\s*(\d+)\s*,\s*(\d+)\s*\]` at the head. -/
def matchDouble (l : List Char) : Option (Nat × List Int) :=
  match l with
  | '[' :: r =>
    let w1 := pWsLen r
    let r1 := r.drop w1
    let ds1 := r1.takeWhile isDigitChar
    if ds1.isEmpty then none
    else
      let r2 := r1.drop ds1.length
      let w2 := pWsLen r2
      if (r2.drop w2).head? = some ',' then
        let r3 := r2.drop (w2 + 1)
        let w3 := pWsLen r3
        let ds2 := (r3.drop w3).takeWhile isDigitChar
        if ds2.isEmpty then none
        else
          let r4 := (r3.drop w3).drop ds2.length
          let w4 := pWsLen r4
          if (r4.drop w4).head? = some ']' then
            some (1 + w1 + ds1.length + w2 + 1 + w3 + ds2.length + w4 + 1,
              [(digitsToNat ds1 : Int), (digitsToNat ds2 : Int)])
          else none
      else none
  | _ => none

/-- Match `\[\s*(\d+)\s*DASH\s*(\d+)\s*\]` at the head; the numbers are
`list(range(start, end + 1))`. -/
def matchRangeWith (dash : Char) (l : List Char) : Option (Nat × List Int) :=
  match l with
  | '[' :: r =>
    let w1 := pWsLen r
    let r1 := r.drop w1
    let ds1 := r1.takeWhile isDigitChar
    if ds1.isEmpty then none
    else
      let r2 := r1.drop ds1.length
      let w2 := pWsLen r2
      if (r2.drop w2).head? = some dash then
        let r3 := r2.drop (w2 + 1)
        let w3 := pWsLen r3
        let ds2 := (r3.drop w3).takeWhile isDigitChar
        if ds2.isEmpty then none
        else
          let r4 := (r3.drop w3).drop ds2.length
          let w4 := pWsLen r4
          if (r4.drop w4).head? = some ']' then
            let a := digitsToNat ds1
            let b := digitsToNat ds2
            some (1 + w1 + ds1.length + w2 + 1 + w3 + ds2.length + w4 + 1,
              (List.range' a (b + 1 - a)).map (fun n => (n : Int)))
          else none
      else none
  | _ => none

/-- The comma-number iteration of the catch-all pattern
(`(?:\s*,\s*\d+)*`): consumed length and collected numbers. -/
def multiTail : Nat → List Char → Nat × List Int
  | 0, _ => (0, [])
  | fuel + 1, l =>
    let w1 := pWsLen l
    match (l.drop w1).head? with
    | some ',' =>
      let r := l.drop (w1 + 1)
      let w2 := pWsLen r
      let ds := (r.drop w2).takeWhile isDigitChar
      if ds.isEmpty then (0, [])
      else
        let consumed := w1 + 1 + w2 + ds.length
        let p := multiTail fuel (l.drop consumed)
        (consumed + p.1, (digitsToNat ds : Int) :: p.2)
    | _ => (0, [])

/-- Match the catch-all `\[\s*(\d+(?:\s*,\s*\d+)*)\s*\]` at the head. -/
def matchMultiple (l : List Char) : Option (Nat × List Int) :=
  match l with
  | '[' :: r =>
    let w1 := pWsLen r
    let r1 := r.drop w1
    let ds := r1.takeWhile isDigitChar
    if ds.isEmpty then none
    else
      let r2 := r1.drop ds.length
      let p := multiTail (r2.length + 1) r2
      let r3 := r2.drop p.1
      let w2 := pWsLen r3
      if (r3.drop w2).head? = some ']' then
        some (1 + w1 + ds.length + p.1 + w2 + 1, (digitsToNat ds : Int) :: p.2)
      else none
  | _ => none

/-- The marker-producing grammars in their declared order (single, double, the
three dash ranges, catch-all). -/
def marker_patterns : List (List Char → Option (Nat × List Int)) :=
  [matchSingle, matchDouble, matchRangeWith '-', matchRangeWith (Char.ofNat 8211),
   matchRangeWith (Char.ofNat 8212), matchMultiple]

/-- Non-overlapping left-to-right scan of one grammar (`re.finditer`),
collecting (position, length, numbers). -/
def scan_aux (p : List Char → Option (Nat × List Int)) :
    Nat → List Char → Nat → List (Nat × Nat × List Int)
  | 0, _, _ => []
  | _ + 1, [], _ => []
  | fuel + 1, l@(_ :: rest), pos =>
    match p l with
    | some r => (pos, r.1, r.2) :: scan_aux p fuel (l.drop r.1) (pos + r.1)
    | none => scan_aux p fuel rest (pos + 1)

/-- All matches of one grammar over a text. -/
def scan_pattern (p : List Char → Option (Nat × List Int)) (text : List Char) :
    List (Nat × Nat × List Int) :=
  scan_aux p (text.length + 1) text 0

/-- Python `_extract_sentence`, backward half: the sentence start is one past
the nearest `.!?` followed by whitespace within 500 characters, else the
citation start itself. -/
def find_sentence_start (text : List Char) (cite_start : Nat) : Nat :=
  let lo := cite_start - 500
  match ((List.range' (lo + 1) (cite_start - 1 - lo)).reverse).find?
      (fun i => (['.', '!', '?'] : List Char).contains (text.getD i ' ') &&
        decide (i + 1 < text.length) && isPyWs (text.getD (i + 1) ' ')) with
  | some i => i + 1
  | none => cite_start

/-- Python `_extract_sentence`, forward half: the sentence end is one past the
nearest `.!?` at the text end or followed by whitespace within 500
characters, else the citation end itself. -/
def find_sentence_end (text : List Char) (cite_end : Nat) : Nat :=
  match (List.range' cite_end (min text.length (cite_end + 500) - cite_end)).find?
      (fun i => (['.', '!', '?'] : List Char).contains (text.getD i ' ') &&
        (decide (text.length ≤ i + 1) || isPyWs (text.getD (i + 1) ' '))) with
  | some i => i + 1
  | none => cite_end

/-- Python `_extract_sentence`: the stripped sentence slice around the
citation. -/
def extract_sentence (text : List Char) (cite_start cite_end : Nat) : List Char :=
  let s := find_sentence_start text cite_start
  let e := find_sentence_end text cite_end
  pyStrip ((text.drop s).take (e - s))

/-- Keyword table of `_classify_citation_type`, in evaluation order. -/
def type_keywords : List (CitationType × List String) :=
  [(CitationType.evidence,
    ["as shown", "demonstrates", "proves", "evidence", "confirms", "validates"]),
   (CitationType.attribution,
    ["according to", "states", "argues", "claims", "proposes", "suggests",
     "reported", "found", "observed"]),
   (CitationType.comparison,
    ["similar to", "like", "follows", "builds on", "extends", "based on"]),
   (CitationType.contrast,
    ["unlike", "different", "contrast", "however", "alternatively", "instead"]),
   (CitationType.method,
    ["method", "algorithm", "approach", "technique", "procedure", "protocol"]),
   (CitationType.definition,
    ["defined", "definition", "terminology", "concept", "term", "notation"])]

/-- Python `_classify_citation_type`: first keyword class whose pattern occurs
in the lower-cased context-plus-sentence, defaulting to `reference`. -/
def classify_citation_type (before after sentence : List Char) : CitationType :=
  let full := pyLower (before ++ (' ' :: after) ++ (' ' :: sentence))
  match type_keywords.find? (fun p => p.2.any (fun kw => containsSub full kw.data)) with
  | some p => p.1
  | none => CitationType.reference

/-- Build one `InlineCitation` from a grammar match, as the loop body of
`_extract_inline_citations_from_text` does. -/
def build_marker (text : List Char) (m : Nat × Nat × List Int) : InlineCitation :=
  let mstart := m.1
  let len := m.2.1
  let numbers := m.2.2
  let mend := mstart + len
  let start_pos := mstart - 150
  let end_pos := min text.length (mend + 150)
  let context_before := (text.drop start_pos).take (mstart - start_pos)
  let context_after := (text.drop mend).take (end_pos - mend)
  let sentence := extract_sentence text mstart mend
  { citation_numbers := numbers,
    raw_text := String.mk ((text.drop mstart).take len),
    context_before := String.mk (pyStrip context_before),
    context_after := String.mk (pyStrip context_after),
    position := mstart,
    citation_type := classify_citation_type context_before context_after sentence,
    sentence := String.mk (pyStrip sentence) }

/-- Keep the first marker at each position (`seen_positions`). -/
def dedup_by_position (l : List InlineCitation) : List InlineCitation :=
  (l.foldl
    (fun (acc : List InlineCitation × List Nat) c =>
      if c.position ∈ acc.2 then acc else (acc.1 ++ [c], acc.2 ++ [c.position]))
    ([], [])).1

/-- Insert a marker into a position-sorted list. -/
def insert_by_pos (c : InlineCitation) : List InlineCitation → List InlineCitation
  | [] => [c]
  | x :: xs => if c.position < x.position then c :: x :: xs else x :: insert_by_pos c xs

/-- Sort markers by position. -/
def sort_by_pos (l : List InlineCitation) : List InlineCitation :=
  l.foldr insert_by_pos []

/-- Python `_extract_inline_citations_from_text`: run every grammar over the
whole text, build a marker per match, deduplicate by position and sort. -/
def extract_inline_citations_from_text (text : List Char) : List InlineCitation :=
  let all := marker_patterns.foldl (fun acc p => acc ++ scan_pattern p text) []
  sort_by_pos (dedup_by_position (all.map (build_marker text)))

/-- The reference lookup dictionary (`{entry.number: entry}`, later entries
overriding earlier ones). -/
def ref_lookup (entries : List ReferenceEntry) (n : Int) : Option ReferenceEntry :=
  entries.reverse.find? (fun e => e.number == n)

/-- Python `link_citations_to_references`: one link per referenced number,
resolved against the numbered bibliography, confidence 1 when resolved. -/
def link_citations_to_references (ics : List InlineCitation)
    (refs : List ReferenceEntry) : List CitationLink :=
  ics.foldl
    (fun acc ic =>
      acc ++ ic.citation_numbers.map (fun n =>
        let entry := ref_lookup refs n
        { inline_citation := ic, reference_entry := entry,
          confidence := if entry.isSome then (1 : ℚ) else 0 }))
    []

/-- The scan behind `_extract_year_from_ref`: the first word-bounded
four-digit token starting `19` or `20`, tracking the previous character for
the left word boundary. -/
def year_scan : Option Char → List Char → Option Int
  | prev, c1 :: rest1 =>
    match rest1 with
    | c2 :: c3 :: c4 :: rest =>
      if (match prev with | none => true | some p => !isWordChar p) = true ∧
          ((c1 = '1' ∧ c2 = '9') ∨ (c1 = '2' ∧ c2 = '0')) ∧
          isDigitChar c3 = true ∧ isDigitChar c4 = true ∧
          (match rest.head? with | none => true | some nc => !isWordChar nc) = true then
        some ((digitsToNat [c1, c2, c3, c4] : Int))
      else year_scan (some c1) rest1
    | _ => none
  | _, [] => none

/-- Python `_extract_year_from_ref`: `re.search(r'\b(19|20)\d{2}\b')`. -/
def extract_year_from_ref (ref_text : String) : Option Int :=
  year_scan none ref_text.data

end Inline

/-!
Concrete records used by the claim witnesses and counterexamples.
-/

namespace Claims

open Theke CitationExtractor

/-- Record with DOI `10.1 slash abc` and a title unrelated to its partner. -/
def cit_doi_x : Enhanced.ExtractedCitation :=
  { title := some "completely different words", doi := some "10.1/abc", source := "crossref" }

/-- Record with the same DOI as `cit_doi_x` but an unrelated title. -/
def cit_doi_y : Enhanced.ExtractedCitation :=
  { title := some "unrelated thing entirely", doi := some "10.1/abc", source := "pdf_extraction" }

/-- Canonical entry with every field present, for the C7 witness. -/
def cit_full : Enhanced.ExtractedCitation :=
  { title := some "entry title", authors := some ["A One"], year := some 2001,
    doi := some "10.2/e", journal := some "J One", source := "openalex", confidence := 1/2 }

/-- Candidate with every field present but different values, for the C7 witness. -/
def cit_cand : Enhanced.ExtractedCitation :=
  { title := some "candidate title", authors := some ["B Two"], year := some 2002,
    doi := some "10.3/c", journal := some "J Two", source := "crossref", confidence := 3/4 }

/-- Capture with a title and an out-of-range year group and no authors group:
the code accepts it (dropping the year), refuting the claimed acceptance
condition. -/
def cap_bad : CaptureData :=
  { title := some "Understanding Deep Networks", year1 := some "1850" }

/-- Bibliography entry number 5 for the C9 linking check. -/
def ref_five : Inline.ReferenceEntry := { number := 5, raw_text := "Fifth reference" }

/-- Bibliography entry number 6 for the C9 linking check. -/
def ref_six : Inline.ReferenceEntry := { number := 6, raw_text := "Sixth reference" }

/-- Bibliography entry number 7 for the C9 linking check. -/
def ref_seven : Inline.ReferenceEntry := { number := 7, raw_text := "Seventh reference" }

end Claims

/-!
Helper theorems about the embedded definitions, shared by the claim proofs.
-/

namespace Difflib

/-- Evaluation helper: once the matched size is known, `ratioScore` is a
plain rational expression. -/
theorem ratioScore_eval {sa sb : String} {M L : Nat} (h : matchedCount sa sb = M)
    (hL : sa.length + sb.length = L) (h0 : L ≠ 0) :
    ratioScore sa sb = (2 * M : ℚ) / (L : ℚ) := by
  unfold ratioScore
  simp only [hL, h, if_neg h0]

end Difflib

namespace CitationExtractor

/-- Author similarity is symmetric: Jaccard of the two last-name sets. -/
theorem author_sim_comm (a1 a2 : List String) :
    calculate_author_similarity a1 a2 = calculate_author_similarity a2 a1 := by
  simp only [calculate_author_similarity]
  by_cases h1 : a1 = [] ∨ a2 = []
  · rw [if_pos h1, if_pos (show a2 = [] ∨ a1 = [] from h1.symm)]
  · rw [if_neg h1, if_neg (show ¬(a2 = [] ∨ a1 = []) from fun h => h1 h.symm)]
    by_cases h2 : (a1.map get_last_name).toFinset = ∅ ∨ (a2.map get_last_name).toFinset = ∅
    · rw [if_pos h2,
        if_pos (show (a2.map get_last_name).toFinset = ∅ ∨ (a1.map get_last_name).toFinset = ∅
          from h2.symm)]
    · rw [if_neg h2,
        if_neg (show ¬((a2.map get_last_name).toFinset = ∅ ∨ (a1.map get_last_name).toFinset = ∅)
          from fun h => h2 h.symm)]
      rw [Finset.inter_comm (a2.map get_last_name).toFinset,
        Finset.union_comm (a2.map get_last_name).toFinset]

/-- The running minimum of `min_by_start` stays in the candidate pool. -/
theorem min_fold_mem : ∀ (rest : List RegexMatch) (m : RegexMatch),
    rest.foldl (fun best x => if x.start < best.start then x else best) m = m ∨
    rest.foldl (fun best x => if x.start < best.start then x else best) m ∈ rest := by
  intro rest
  induction rest with
  | nil => intro m; left; rfl
  | cons x xs ih =>
    intro m
    simp only [List.foldl_cons]
    rcases ih (if x.start < m.start then x else m) with h | h
    · rw [h]
      by_cases hx : x.start < m.start
      · right; simp [hx]
      · left; simp [hx]
    · right; exact List.mem_cons_of_mem _ h

/-- The running minimum of `min_by_start` is a lower bound for the seed and
all pool elements. -/
theorem min_fold_le : ∀ (rest : List RegexMatch) (m : RegexMatch),
    (rest.foldl (fun best x => if x.start < best.start then x else best) m).start ≤ m.start ∧
    ∀ x ∈ rest,
      (rest.foldl (fun best x => if x.start < best.start then x else best) m).start ≤ x.start := by
  intro rest
  induction rest with
  | nil => intro m; exact ⟨le_refl _, by simp⟩
  | cons x xs ih =>
    intro m
    simp only [List.foldl_cons]
    obtain ⟨h1, h2⟩ := ih (if x.start < m.start then x else m)
    have hm : (if x.start < m.start then x else m).start ≤ m.start := by
      by_cases hx : x.start < m.start
      · simp [hx]; exact hx.le
      · simp [hx]
    have hx2 : (if x.start < m.start then x else m).start ≤ x.start := by
      by_cases hx : x.start < m.start
      · simp [hx]
      · simp [hx]; exact not_lt.mp hx
    refine ⟨le_trans h1 hm, ?_⟩
    intro y hy
    rcases List.mem_cons.mp hy with rfl | hy2
    · exact le_trans h1 hx2
    · exact h2 y hy2

end CitationExtractor


namespace Claims

open Theke CitationExtractor

/-- Claim C1: for a text-derived candidate (year absent or in the valid
1900-2030 range), the computed extraction confidence equals base 0.3, plus 0.2
for a title longer than 15 characters and a further 0.1 beyond 30, plus 0.15
for a nonempty author list and 0.05 for more than one author, plus 0.15 for a
year, plus 0.1 for a journal longer than 5 characters, plus 0.1 for a DOI,
plus 0.05 for a bracket signal and 0.05 for a parenthesis signal in the raw
matched text, capped at 0.9. -/
theorem c1_confidence_formula (title : String) (authors : List String)
    (year : Option Int) (journal doi raw_text : String)
    (hyear : year = none ∨ ∃ y, year = some y ∧ 1900 ≤ y ∧ y ≤ 2030) :
    calculate_extraction_confidence title authors year journal doi raw_text =
      confidence_formula title authors year journal doi raw_text := by
  have hy : intTruthy year = year.isSome := by
    rcases hyear with h | ⟨y, h, h1, _⟩ <;> subst h
    · rfl
    · simp only [intTruthy, Option.isSome_some, decide_eq_true_eq]
      omega
  have hj : (journal ≠ "" ∧ 5 < journal.length) = (5 < journal.length) := by
    apply propext
    constructor
    · exact fun h => h.2
    · refine fun h => ⟨?_, h⟩
      intro h0
      rw [h0] at h
      exact absurd h (by decide)
  have hadd : ∀ (p : Prop) (inst : Decidable p) (x d : ℚ),
      (@ite _ p inst (x + d) x) = x + (@ite _ p inst d 0) := by
    intro p inst x d
    split_ifs <;> simp
  by_cases hA : authors ≠ []
  · by_cases hB : 1 < authors.length
    · simp only [calculate_extraction_confidence, confidence_formula, confidence_bonuses,
        hy, hj, if_pos hA, if_pos hB, List.sum_cons, List.sum_nil]
      congr 1
      simp only [hadd]
      ring
    · simp only [calculate_extraction_confidence, confidence_formula, confidence_bonuses,
        hy, hj, if_pos hA, if_neg hB, List.sum_cons, List.sum_nil]
      congr 1
      simp only [hadd]
      ring
  · have hB : ¬ (1 < authors.length) := by
      intro h
      have h0 : authors = [] := not_not.mp hA
      rw [h0] at h
      exact absurd h (by decide)
    simp only [calculate_extraction_confidence, confidence_formula, confidence_bonuses,
      hy, hj, if_neg hA, if_neg hB, List.sum_cons, List.sum_nil]
    congr 1
    simp only [hadd]
    ring

/-- Witness for C1 at a fully populated candidate. -/
theorem c1_confidence_formula_witness :
    calculate_extraction_confidence "Deep Learning Methods for Program Analysis"
        ["A Smith", "B Jones"] (some 2020) "Journal of Tests" "10.1/x" "[1] raw (2020)" =
      confidence_formula "Deep Learning Methods for Program Analysis"
        ["A Smith", "B Jones"] (some 2020) "Journal of Tests" "10.1/x" "[1] raw (2020)" :=
  c1_confidence_formula _ _ _ _ _ _ (Or.inr ⟨2020, rfl, by norm_num, by norm_num⟩)

/-- Claim C2 (counterexample): for the pair of candidates with titles
"alpha beta" and "beta alpha" and no other fields, the code computes
0.6 × SequenceMatcher ratio = 0.3, whereas the claimed formula (title
token-Jaccard with weights renormalised over available components) gives 1. -/
theorem c2_renormalisation_counterexample :
    calculate_similarity ca_alpha ca_beta = 3/10 ∧ spec_similarity ca_alpha ca_beta = 1 := by
  constructor
  · have h1 : pyLowerStr "alpha beta" = "alpha beta" := by decide
    have h2 : pyLowerStr "beta alpha" = "beta alpha" := by decide
    have hr : Difflib.ratioScore (pyLowerStr "alpha beta") (pyLowerStr "beta alpha") = 1/2 := by
      rw [h1, h2, Difflib.ratioScore_eval (M := 5) (L := 20) (by decide) (by decide) (by decide)]
      norm_num
    simp [calculate_similarity, ca_alpha, ca_beta, intTruthy, hr]
    norm_num
  · have hi : ((splitWs (pyLower "alpha beta".data)).toFinset ∩
        (splitWs (pyLower "beta alpha".data)).toFinset).card = 2 := by decide
    have hu : ((splitWs (pyLower "alpha beta".data)).toFinset ∪
        (splitWs (pyLower "beta alpha".data)).toFinset).card = 2 := by decide
    have hne : ¬((splitWs (pyLower "alpha beta".data)).toFinset = ∅ ∨
        (splitWs (pyLower "beta alpha".data)).toFinset = ∅) := by decide
    have hw : token_jaccard "alpha beta" "beta alpha" = 1 := by
      simp only [token_jaccard, if_neg hne, hi, hu]
      norm_num
    simp [spec_similarity, ca_alpha, ca_beta, hw]

/-- Claim C2 (amended): the implemented similarity equals the available
weighted component scores averaged over the NUMBER of available components
(not renormalised over the weights), with the title component being the
`difflib.SequenceMatcher` ratio of the lower-cased titles, and 0 when no
component is available. -/
theorem c2_amended_mean_similarity (c1 c2 : CitationMatch) :
    calculate_similarity c1 c2 = mean_component_similarity c1 c2 := by
  simp only [calculate_similarity, mean_component_similarity]
  by_cases ht : c1.title ≠ "" ∧ c2.title ≠ "" <;>
    by_cases ha : c1.authors ≠ [] ∧ c2.authors ≠ [] <;>
      by_cases hy : (intTruthy c1.year && intTruthy c2.year) = true <;>
        simp [ht, ha, hy] <;> ring_nf <;> norm_num

/-- Claim C8 (counterexample): similarity is not symmetric — with titles
"ab" and "bacb" the SequenceMatcher ratio differs by argument order
(2/3 versus 1/3), so the similarity is 2/5 one way and 1/5 the other. -/
theorem c8_symmetry_counterexample :
    calculate_similarity ca_ab ca_bacb ≠ calculate_similarity ca_bacb ca_ab := by
  have h1 : pyLowerStr "ab" = "ab" := by decide
  have h2 : pyLowerStr "bacb" = "bacb" := by decide
  have hr1 : Difflib.ratioScore (pyLowerStr "ab") (pyLowerStr "bacb") = 2/3 := by
    rw [h1, h2, Difflib.ratioScore_eval (M := 2) (L := 6) (by decide) (by decide) (by decide)]
    norm_num
  have hr2 : Difflib.ratioScore (pyLowerStr "bacb") (pyLowerStr "ab") = 1/3 := by
    rw [h1, h2, Difflib.ratioScore_eval (M := 1) (L := 6) (by decide) (by decide) (by decide)]
    norm_num
  have e1 : calculate_similarity ca_ab ca_bacb = 2/5 := by
    simp [calculate_similarity, ca_ab, ca_bacb, intTruthy, hr1]
    norm_num
  have e2 : calculate_similarity ca_bacb ca_ab = 1/5 := by
    simp [calculate_similarity, ca_ab, ca_bacb, intTruthy, hr2]
    norm_num
  rw [e1, e2]
  norm_num

/-- Claim C8 (amended): similarity is symmetric whenever the lower-cased
titles agree or at least one title is empty; the asymmetry can only come from
the SequenceMatcher title component. -/
theorem c8_amended_symmetry (c1 c2 : CitationMatch)
    (h : pyLowerStr c1.title = pyLowerStr c2.title ∨ c1.title = "" ∨ c2.title = "") :
    calculate_similarity c1 c2 = calculate_similarity c2 c1 := by
  have ht : (if c1.title ≠ "" ∧ c2.title ≠ "" then
      [Difflib.ratioScore (pyLowerStr c1.title) (pyLowerStr c2.title) * (6/10)]
      else ([] : List ℚ)) =
      (if c2.title ≠ "" ∧ c1.title ≠ "" then
      [Difflib.ratioScore (pyLowerStr c2.title) (pyLowerStr c1.title) * (6/10)] else []) := by
    rcases h with heq | h0 | h0
    · rw [heq]
      exact if_congr and_comm rfl rfl
    · simp [h0]
    · simp [h0]
  have ha : (if c1.authors ≠ [] ∧ c2.authors ≠ [] then
      [calculate_author_similarity c1.authors c2.authors * (3/10)] else ([] : List ℚ)) =
      (if c2.authors ≠ [] ∧ c1.authors ≠ [] then
      [calculate_author_similarity c2.authors c1.authors * (3/10)] else []) := by
    rw [author_sim_comm]
    exact if_congr and_comm rfl rfl
  have hyq : (if (intTruthy c1.year && intTruthy c2.year) = true then
      [(if c1.year = c2.year then (1:ℚ) else 0) * (1/10)] else ([] : List ℚ)) =
      (if (intTruthy c2.year && intTruthy c1.year) = true then
      [(if c2.year = c1.year then (1:ℚ) else 0) * (1/10)] else []) := by
    have hc : (intTruthy c1.year && intTruthy c2.year) = (intTruthy c2.year && intTruthy c1.year) :=
      Bool.and_comm _ _
    have hv : (c1.year = c2.year) = (c2.year = c1.year) := propext ⟨Eq.symm, Eq.symm⟩
    rw [hc]
    simp only [hv]
  simp only [calculate_similarity]
  rw [ht, ha, hyq]

/-- Witness for the amended C8 at two records sharing a title. -/
theorem c8_amended_symmetry_witness :
    calculate_similarity { title := "shared title", authors := ["Ann Smith"] }
        { title := "shared title", authors := [] } =
      calculate_similarity { title := "shared title", authors := [] }
        { title := "shared title", authors := ["Ann Smith"] } :=
  c8_amended_symmetry _ _ (Or.inl rfl)

/-- Claim C3: two candidates carrying the same non-empty DOI are judged the
same work by `_are_similar_citations`, and `_merge_and_deduplicate` collapses
the pair into a single canonical entry, whatever their titles or authors. -/
theorem c3_same_doi_merges (a b : Enhanced.ExtractedCitation) (d : String) (hd : d ≠ "")
    (ha : a.doi = some d) (hb : b.doi = some d) :
    Enhanced.are_similar_citations a b = true ∧
      (Enhanced.merge_and_deduplicate [a, b]).length = 1 := by
  have hsim : ∀ x y : Enhanced.ExtractedCitation, x.doi = some d → y.doi = some d →
      Enhanced.are_similar_citations x y = true := by
    intro x y hx hy
    simp only [Enhanced.are_similar_citations, hx, hy, optStrTruthy]
    simp [hd]
  refine ⟨hsim a b ha hb, ?_⟩
  have h1 : Enhanced.are_similar_citations b a = true := hsim b a hb ha
  simp [Enhanced.merge_and_deduplicate, Enhanced.replace_first_similar, h1]

/-- Witness for C3: Scenario B — shared DOI `10.1/abc`, unrelated titles. -/
theorem c3_same_doi_merges_witness :
    Enhanced.are_similar_citations cit_doi_x cit_doi_y = true ∧
      (Enhanced.merge_and_deduplicate [cit_doi_x, cit_doi_y]).length = 1 :=
  c3_same_doi_merges cit_doi_x cit_doi_y "10.1/abc" (by decide) rfl rfl

/-- Claim C7: when a candidate is merged into an existing canonical entry,
every field of title/authors/year/doi/journal that is present on the entry
keeps its value, and confidence becomes the maximum of the two. -/
theorem c7_merge_preserves_present_fields (e c : Enhanced.ExtractedCitation) :
    ((optStrTruthy e.title = true → (Enhanced.merge_into e c).title = e.title) ∧
     (Enhanced.optListTruthy e.authors = true → (Enhanced.merge_into e c).authors = e.authors) ∧
     (intTruthy e.year = true → (Enhanced.merge_into e c).year = e.year) ∧
     (optStrTruthy e.doi = true → (Enhanced.merge_into e c).doi = e.doi) ∧
     (optStrTruthy e.journal = true → (Enhanced.merge_into e c).journal = e.journal)) ∧
    (Enhanced.merge_into e c).confidence = max e.confidence c.confidence := by
  refine ⟨⟨?_, ?_, ?_, ?_, ?_⟩, ?_⟩
  · intro h
    simp [Enhanced.merge_into, h]
  · intro h
    simp [Enhanced.merge_into, h]
  · intro h
    simp [Enhanced.merge_into, h]
  · intro h
    simp [Enhanced.merge_into, h]
  · intro h
    simp [Enhanced.merge_into, h]
  · rcases lt_or_le e.confidence c.confidence with h | h
    · simp [Enhanced.merge_into, if_pos h, max_eq_right h.le]
    · simp [Enhanced.merge_into, if_neg (not_lt.mpr h), max_eq_left h]

/-- Witness for C7: a fully populated canonical entry keeps all its fields and
takes the larger confidence. -/
theorem c7_merge_preserves_present_fields_witness :
    (Enhanced.merge_into cit_full cit_cand).title = cit_full.title ∧
    (Enhanced.merge_into cit_full cit_cand).authors = cit_full.authors ∧
    (Enhanced.merge_into cit_full cit_cand).year = cit_full.year ∧
    (Enhanced.merge_into cit_full cit_cand).doi = cit_full.doi ∧
    (Enhanced.merge_into cit_full cit_cand).journal = cit_full.journal ∧
    (Enhanced.merge_into cit_full cit_cand).confidence =
      max cit_full.confidence cit_cand.confidence := by
  obtain ⟨⟨h1, h2, h3, h4, h5⟩, h6⟩ := c7_merge_preserves_present_fields cit_full cit_cand
  exact ⟨h1 (by decide), h2 (by decide), h3 (by decide), h4 (by decide), h5 (by decide), h6⟩

/-- Claim C4: when no bibliography heading matches anywhere, the locator
returns the citation-dense sliding-window fallback (a total function, so the
fallback path cannot raise); and a located section that is long (over 1000
characters) with density below 0.005 is replaced by the highest-density
window whenever the fallback yields one. -/
theorem c4_fallback_on_no_heading_or_low_density :
    (∀ (W S : Nat) (text : String) (em : List (Option Nat)),
      find_references_section W S text [] em = find_citation_dense_section W S text) ∧
    (∀ (full : String) (W S : Nat) (sec : List Char) (w : String),
      citation_density sec < 5/1000 → 1000 < sec.length →
      find_citation_dense_section W S full = some w →
      finish_references_section full W S sec = some w) := by
  constructor
  · intro W S text em
    simp [find_references_section, select_references_match]
  · intro full W S sec w hd hl hf
    simp [finish_references_section, hd, hl, hf]

set_option maxRecDepth 100000 in
/-- Witness for C4: a heading-free document falls back to the dense window,
and a 1001-character zero-density section is replaced by the dense window of
the full text. -/
theorem c4_fallback_witness :
    find_references_section 100 100 "plain document text" [] [] =
      find_citation_dense_section 100 100 "plain document text" ∧
    finish_references_section "cite [1] now" 100 100 (List.replicate 1001 'a') =
      some "cite [1] now" := by
  constructor
  · exact c4_fallback_on_no_heading_or_low_density.1 100 100 "plain document text" []
  · refine c4_fallback_on_no_heading_or_low_density.2 "cite [1] now" 100 100
      (List.replicate 1001 'a') "cite [1] now" ?_ ?_ ?_
    · have hc : count_indicators (List.replicate 1001 'a') = 0 := by decide
      have hw : (splitWs (List.replicate 1001 'a')).length = 1 := by decide
      simp only [citation_density, hc, hw]
      norm_num
    · simp only [List.length_replicate]
      norm_num
    · decide

/-- Claim C5: among all heading matches the locator selects the earliest match
whose start lies in the later 75 percent of the document; when no match does,
it uses the last match found; in particular with matches at 5 percent and 80
percent depth of a 1000-character document it selects the 80-percent one. -/
theorem c5_locator_prefers_late_matches :
    (∀ (L : Nat) (ms : List RegexMatch), ms ≠ [] →
      ((ms.filter (fun m => decide ((L : ℚ) * (25/100) < (m.start : ℚ))) = [] →
          select_references_match L ms = ms.getLast?) ∧
       (ms.filter (fun m => decide ((L : ℚ) * (25/100) < (m.start : ℚ))) ≠ [] →
          ∃ m, select_references_match L ms = some m ∧
            m ∈ ms.filter (fun m => decide ((L : ℚ) * (25/100) < (m.start : ℚ))) ∧
            ∀ m2 ∈ ms.filter (fun m => decide ((L : ℚ) * (25/100) < (m.start : ℚ))),
              m.start ≤ m2.start))) ∧
    select_references_match 1000 [⟨50, 62⟩, ⟨800, 811⟩] = some ⟨800, 811⟩ := by
  constructor
  · intro L ms hne
    constructor
    · intro hv
      simp only [select_references_match, if_neg hne]
      rw [if_pos hv]
    · intro hv
      simp only [select_references_match, if_neg hne]
      rw [if_neg hv]
      obtain ⟨x, xs, hx⟩ := List.exists_cons_of_ne_nil hv
      rw [hx, min_by_start]
      refine ⟨_, rfl, ?_, ?_⟩
      · rcases min_fold_mem xs x with h | h
        · rw [h]; exact List.mem_cons_self _ _
        · exact List.mem_cons_of_mem _ h
      · intro m2 hm2
        obtain ⟨h1, h2⟩ := min_fold_le xs x
        rcases List.mem_cons.mp hm2 with rfl | hm3
        · exact h1
        · exact h2 m2 hm3
  · simp only [select_references_match, List.filter, min_by_start]
    norm_num
    intro h
    simp at h

/-- Witness for C5: the general selection property applied to the two-match
scenario list. -/
theorem c5_locator_prefers_late_matches_witness :
    (List.filter (fun m => decide ((1000 : ℚ) * (25/100) < (m.start : ℚ)))
        [RegexMatch.mk 50 62, RegexMatch.mk 800 811] = [] →
      select_references_match 1000 [RegexMatch.mk 50 62, RegexMatch.mk 800 811] =
        [RegexMatch.mk 50 62, RegexMatch.mk 800 811].getLast?) ∧
    (List.filter (fun m => decide ((1000 : ℚ) * (25/100) < (m.start : ℚ)))
        [RegexMatch.mk 50 62, RegexMatch.mk 800 811] ≠ [] →
      ∃ m, select_references_match 1000 [RegexMatch.mk 50 62, RegexMatch.mk 800 811] =
          some m ∧
        m ∈ List.filter (fun m => decide ((1000 : ℚ) * (25/100) < (m.start : ℚ)))
            [RegexMatch.mk 50 62, RegexMatch.mk 800 811] ∧
        ∀ m2 ∈ List.filter (fun m => decide ((1000 : ℚ) * (25/100) < (m.start : ℚ)))
            [RegexMatch.mk 50 62, RegexMatch.mk 800 811],
          m.start ≤ m2.start) :=
  c5_locator_prefers_late_matches.1 1000 [RegexMatch.mk 50 62, RegexMatch.mk 800 811]
    (by simp)

/-- Claim C6 (counterexample): a capture whose only year group is the
out-of-range "1850" and which has no authors group is still accepted — the
built candidate has no year and an empty author list, so acceptance does not
require (valid year OR nonempty authors). -/
theorem c6_acceptance_counterexample :
    (process_capture cap_bad "Understanding Deep Networks. 1850.").isSome = true ∧
    (process_capture cap_bad "Understanding Deep Networks. 1850.").map CitationMatch.year =
      some none ∧
    (process_capture cap_bad "Understanding Deep Networks. 1850.").map CitationMatch.authors =
      some [] := by
  refine ⟨by decide, by decide, by decide⟩

/-- Claim C6 (amended): a capture is accepted exactly when its groups include
a title and at least one of a year group (even out of range) or an authors
group (even one normalising to no authors), and the cleaned title has length
at least 8 and is not an invalid title. An invalid year is dropped and an
empty author normalisation kept, without re-checking the acceptance gate. -/
theorem c6_amended_acceptance (d : CaptureData) (raw : String) :
    (process_capture d raw).isSome = true ↔
      (d.title.isSome ∧
       (d.year.isSome ∨ d.year1.isSome ∨ d.year2.isSome ∨ d.authors.isSome) ∧
       8 ≤ (clean_title (d.title.getD "").data).length ∧
       is_invalid_title (clean_title (d.title.getD "").data) = false) := by
  simp only [process_capture]
  split_ifs with h1 h2
  · simp only [Option.isSome_none, Bool.false_eq_true, false_iff]
    rintro ⟨_, _, hlen, hinv⟩
    rcases h2 with h2 | h2
    · omega
    · rw [h2] at hinv
      simp at hinv
  · simp only [Option.isSome_some, true_iff]
    push_neg at h2
    exact ⟨h1.1, h1.2, by omega, by simpa using h2.2⟩
  · simp only [Option.isSome_none, Bool.false_eq_true, false_iff]
    rintro ⟨ht, hy, _, _⟩
    exact h1 ⟨ht, hy⟩

/-- Claim C9 (counterexample): a body text containing the mixed marker
`[3,5-7]` yields NO inline marker at all — the comma-list grammar does not
allow ranges and the range grammars do not allow commas, so the claimed
expansion to 3, 5, 6, 7 never happens. -/
theorem c9_mixed_marker_counterexample :
    Inline.extract_inline_citations_from_text "We cite [3,5-7] here.".data = [] := by
  decide

set_option maxRecDepth 4000 in
/-- Claim C9 (amended): the extractor does not recognise `[3,5-7]`; a comma
list `[3,5]` yields the numbers 3 and 5 and a pure range `[5-7]` yields 5, 6
and 7, and linking the `[5-7]` marker against a numbered bibliography with
entries 5, 6 and 7 produces three links, all resolved with confidence 1. -/
theorem c9_amended_marker_extraction :
    (Inline.extract_inline_citations_from_text "We cite [3,5] and later [5-7] here.".data).map
        (fun c => (c.position, c.citation_numbers)) = [(8, [3, 5]), (24, [5, 6, 7])] ∧
    (Inline.link_citations_to_references
        (Inline.extract_inline_citations_from_text "We cite [5-7] here.".data)
        [ref_five, ref_six, ref_seven]).map
        (fun l => Option.map Inline.ReferenceEntry.number l.reference_entry) =
      [some 5, some 6, some 7] ∧
    (Inline.link_citations_to_references
        (Inline.extract_inline_citations_from_text "We cite [5-7] here.".data)
        [ref_five, ref_six, ref_seven]).map Inline.CitationLink.confidence = [1, 1, 1] := by
  refine ⟨by decide, by decide, ?_⟩
  simp [Inline.link_citations_to_references, Inline.extract_inline_citations_from_text,
    Inline.marker_patterns, Inline.scan_pattern]
  decide

/-- Digit characters have code points between 48 and 57. -/
theorem digit_toNat_bounds {c : Char} (h : Theke.isDigitChar c = true) :
    48 ≤ c.toNat ∧ c.toNat ≤ 57 := by
  simp only [Theke.isDigitChar, decide_eq_true_eq] at h
  fin_cases h <;> decide

/-- Any year produced by the word-bounded `(19|20)dd` scan lies in
[1900, 2099]. -/
theorem year_scan_in_range : ∀ (l : List Char) (prev : Option Char) (y : Int),
    Inline.year_scan prev l = some y → 1900 ≤ y ∧ y ≤ 2099 := by
  intro l
  induction l with
  | nil =>
    intro prev y h
    simp [Inline.year_scan] at h
  | cons c1 rest ih =>
    intro prev y h
    rcases rest with _ | ⟨c2, rest2⟩
    · simp [Inline.year_scan] at h
    rcases rest2 with _ | ⟨c3, rest3⟩
    · simp [Inline.year_scan] at h
    rcases rest3 with _ | ⟨c4, rest4⟩
    · simp [Inline.year_scan] at h
    simp only [Inline.year_scan] at h
    split_ifs at h with hc
    · obtain ⟨_, hd, h3, h4, _⟩ := hc
      obtain ⟨h3l, h3u⟩ := digit_toNat_bounds h3
      obtain ⟨h4l, h4u⟩ := digit_toNat_bounds h4
      have hy := Option.some.inj h
      have e0 : '0'.toNat = 48 := rfl
      rcases hd with ⟨rfl, rfl⟩ | ⟨rfl, rfl⟩
      · have hval : Theke.digitsToNat ['1', '9', c3, c4] =
            ((('1'.toNat - '0'.toNat) * 10 + ('9'.toNat - '0'.toNat)) * 10 +
              (c3.toNat - '0'.toNat)) * 10 + (c4.toNat - '0'.toNat) := by
          simp [Theke.digitsToNat]
        have e1 : '1'.toNat = 49 := rfl
        have e9 : '9'.toNat = 57 := rfl
        rw [hval, e0, e1, e9] at hy
        omega
      · have hval : Theke.digitsToNat ['2', '0', c3, c4] =
            ((('2'.toNat - '0'.toNat) * 10 + ('0'.toNat - '0'.toNat)) * 10 +
              (c3.toNat - '0'.toNat)) * 10 + (c4.toNat - '0'.toNat) := by
          simp [Theke.digitsToNat]
        have e2 : '2'.toNat = 50 := rfl
        rw [hval, e0, e2] at hy
        omega
    · exact ih (some c1) y h

/-- Claim C10: a year extracted from a reference entry is the value of a
word-bounded four-digit token starting 19 or 20, hence always in
[1900, 2099]; in particular 2050 — beyond the 1900-2030 bound of candidate
years — is accepted. -/
theorem c10_reference_year_range :
    (∀ (s : String) (y : Int), Inline.extract_year_from_ref s = some y →
      1900 ≤ y ∧ y ≤ 2099) ∧
    Inline.extract_year_from_ref "J. Smith. Future Work. 2050." = some 2050 := by
  constructor
  · intro s y h
    exact year_scan_in_range s.data none y h
  · decide

/-- Witness for C10: the range bound applied to the concrete reference line
with year 2050. -/
theorem c10_reference_year_range_witness : (1900 : Int) ≤ 2050 ∧ (2050 : Int) ≤ 2099 :=
  c10_reference_year_range.1 "J. Smith. Future Work. 2050." 2050 (by decide)

end Claims
